import Mathlib

/-!
Verification of the FX-quote core of the Flow payment platform.

The Python source is embedded shallowly:
* Python Decimal values become rationals; Decimal.quantize with the default
  ROUND_HALF_EVEN context becomes the quantize function below.
* datetime values become integers (seconds); datetime.utcnow() becomes an
  explicit now parameter threaded through every operation that reads the clock.
* The SQLAlchemy session becomes an explicit DB value; each repository method
  that commits becomes a function from DB to DB (plus its return value).
  Foreign-key and unique constraints declared in app/database/models.py are
  enforced at the commit points, since a violated constraint is exactly what
  makes those commits raise in the source.
* random.uniform in the mock provider becomes an explicit fluct parameter,
  and the generated quote id becomes a deterministic tag of the clock value.
* Raised exceptions become Except.error carrying the message text the source
  would produce.
-/

/- Batteries marks the rational field operations irreducible, which blocks
their evaluation inside decidability checks on concrete inputs; restore the
default reducibility for this development so that concrete quotes can be
computed inside proofs. -/
attribute [local semireducible] Rat.mul Rat.add Rat.sub Rat.inv

namespace Flow

/-- Python str.upper on the ASCII currency codes handled here: uppercase every
character. -/
def upper (s : String) : String := String.mk (s.data.map Char.toUpper)

/-- Floor of a rational, computed directly on the numerator and denominator
(Int.fdiv is floor division; the denominator of a Rat is positive). -/
def ratFloor (q : ℚ) : ℤ :=
  Int.fdiv q.num (q.den : ℤ)

/-- Round a rational to the nearest integer, ties to the even integer: the
ROUND_HALF_EVEN rule of Python's default Decimal context. -/
def roundHalfEven (q : ℚ) : ℤ :=
  let n := ratFloor q
  let frac := q - (n : ℚ)
  if frac < 1/2 then n
  else if 1/2 < frac then n + 1
  else if n % 2 = 0 then n else n + 1

/-- Decimal.quantize to d decimal places under ROUND_HALF_EVEN. -/
def quantize (d : ℕ) (q : ℚ) : ℚ :=
  (roundHalfEven (q * (10 ^ d : ℚ)) : ℚ) / (10 ^ d : ℚ)

/-- quantize(Decimal("0.0001")) of the source. -/
def quantize4 (q : ℚ) : ℚ := quantize 4 q

/-- quantize(Decimal("0.01")) of the source. -/
def quantize2 (q : ℚ) : ℚ := quantize 2 q

/-- MockFXProvider.BASE_RATES from app/integrations/fx_provider.py
(GBP as base currency). -/
def BASE_RATES (c : String) : Option ℚ :=
  if c = "GBP" then some (10000/10000) else
  if c = "EUR" then some (11650/10000) else
  if c = "USD" then some (12720/10000) else
  if c = "CHF" then some (11250/10000) else
  if c = "JPY" then some (14550/100) else
  if c = "CAD" then some (16850/10000) else
  if c = "AUD" then some (18450/10000) else
  if c = "NZD" then some (19750/10000) else
  if c = "SEK" then some (1325/100) else
  if c = "NOK" then some (1315/100) else
  if c = "DKK" then some (868/100) else
  if c = "PLN" then some (505/100) else
  if c = "CZK" then some (2850/100) else
  none

/-- The fields of the rate dictionary built by MockFXProvider.get_rate that are
read downstream; target_amount is none exactly when the source omits the key
(same-currency early return, or a falsy amount), which is what later makes the
subscript in get_quote raise KeyError. Presentational keys (inverse_rate,
timestamp, provider) are not modelled. -/
structure RateInfo where
  rate : ℚ
  target_amount : Option ℚ
deriving DecidableEq

/-- MockFXProvider.get_rate: validates both currencies (source first), returns
an identity rate for a same-currency pair without a conversion amount, and
otherwise the cross rate with the random fluctuation applied and rounded to 4
decimal places, with the converted amount present only for a truthy amount. -/
def get_rate (from_currency to_currency : String) (amount : ℚ) (fluct : ℚ) :
    Except String RateInfo :=
  match BASE_RATES (upper from_currency), BASE_RATES (upper to_currency) with
  | none, _ =>
      .error ("Unsupported source currency: " ++ (upper from_currency))
  | some _, none =>
      .error ("Unsupported target currency: " ++ (upper to_currency))
  | some rf, some rt =>
      if (upper from_currency) = (upper to_currency) then
        .ok { rate := 1, target_amount := none }
      else
        let rate := quantize4 ((rt / rf) * (1 + fluct))
        .ok { rate := rate,
              target_amount :=
                if amount = 0 then none else some (quantize2 (amount * rate)) }

/-- The fields of the quote dictionary built by MockFXProvider.get_quote that
are read downstream. -/
structure ProviderQuote where
  quote_id : String
  rate : ℚ
  source_amount : ℚ
  target_amount : ℚ
  expires_at : ℤ
deriving DecidableEq

/-- MockFXProvider.get_quote: calls get_rate and then subscripts the result
with target_amount, which raises KeyError when the key was omitted; the expiry
is now plus the validity window. The mock quote id, built in the source from
the wall-clock timestamp and a random integer, is modelled as a deterministic
tag of the clock value. -/
def get_quote (from_currency to_currency : String) (amount : ℚ)
    (quote_validity_seconds : ℤ) (now : ℤ) (fluct : ℚ) :
    Except String ProviderQuote :=
  match get_rate from_currency to_currency amount fluct with
  | .error e => .error e
  | .ok ri =>
      match ri.target_amount with
      | none => .error "KeyError: target_amount"
      | some ta =>
          .ok { quote_id := "MFX-" ++ toString now
                rate := ri.rate
                source_amount := amount
                target_amount := ta
                expires_at := now + quote_validity_seconds }

/-- Row of the fx_quotes table (FXQuote in app/database/models.py). -/
structure FXQuote where
  id : ℕ
  company_id : ℕ
  quote_id : String
  source_currency : String
  target_currency : String
  rate : ℚ
  markup_percentage : ℚ
  final_rate : ℚ
  quote_expires_at : ℤ
  is_expired : Bool
  created_at : ℤ
deriving DecidableEq

/-- Row of the audit_logs table (AuditLog in app/database/models.py);
the JSONB new_values payload is modelled as a string association list. -/
structure AuditLog where
  user_id : Option ℕ
  entity_type : String
  entity_id : ℕ
  action : String
  new_values : List (String × String)
deriving DecidableEq

/-- The persisted state touched by the FX core: the companies and users tables
(only their primary keys matter here, as foreign-key targets), the fx_quotes
table and the audit_logs table. -/
structure DB where
  companies : List ℕ
  users : List ℕ
  quotes : List FXQuote
  audits : List AuditLog
deriving DecidableEq

/-- FXQuoteRepository.get_by_id. -/
def get_by_id (db : DB) (quote_id : ℕ) : Option FXQuote :=
  db.quotes.find? (fun q => q.id = quote_id)

/-- Serial primary key assigned by the database on insert. -/
def next_id (db : DB) : ℕ :=
  db.quotes.foldr (fun q m => max (q.id + 1) m) 1

/-- FXQuoteRepository.create: the commit enforces the company_id foreign key
and the unique constraint on quote_id declared in models.py; a violated
constraint raises, leaving the row unpersisted. -/
def fx_create (db : DB) (q : FXQuote) : Except String DB :=
  if q.company_id ∈ db.companies then
    if db.quotes.any (fun r => r.quote_id = q.quote_id) then
      .error "IntegrityError: fx_quotes.quote_id"
    else
      .ok { db with quotes := db.quotes ++ [q] }
  else
    .error "IntegrityError: fx_quotes.company_id"

/-- AuditRepository.create: the commit enforces the user_id foreign key
declared in models.py (the column is nullable). -/
def audit_create (db : DB) (a : AuditLog) : Except String DB :=
  match a.user_id with
  | some u =>
      if u ∈ db.users then .ok { db with audits := db.audits ++ [a] }
      else .error "IntegrityError: audit_logs.user_id"
  | none => .ok { db with audits := db.audits ++ [a] }

/-- FXQuoteRepository.mark_expired: looks the row up by id, returns false when
absent, otherwise sets is_expired to True and commits. -/
def mark_expired (db : DB) (quote_id : ℕ) : DB × Bool :=
  match get_by_id db quote_id with
  | none => (db, false)
  | some _ =>
      ({ db with
          quotes := db.quotes.map
            (fun r => if r.id = quote_id then { r with is_expired := true } else r) },
       true)

/-- The field dictionary accepted by FXQuoteRepository.update: the source
iterates over arbitrary keys and setattr-s every one the row has (unknown keys
are silently skipped by the hasattr guard, so only the model's columns can be
touched; the primary key and created_at are never passed by any caller and are
left out). -/
structure QuoteUpdate where
  quote_id : Option String := none
  source_currency : Option String := none
  target_currency : Option String := none
  rate : Option ℚ := none
  markup_percentage : Option ℚ := none
  final_rate : Option ℚ := none
  quote_expires_at : Option ℤ := none
  is_expired : Option Bool := none
deriving DecidableEq

/-- The setattr loop of FXQuoteRepository.update applied to one row. -/
def applyUpdate (u : QuoteUpdate) (q : FXQuote) : FXQuote :=
  { q with
      quote_id := u.quote_id.getD q.quote_id
      source_currency := u.source_currency.getD q.source_currency
      target_currency := u.target_currency.getD q.target_currency
      rate := u.rate.getD q.rate
      markup_percentage := u.markup_percentage.getD q.markup_percentage
      final_rate := u.final_rate.getD q.final_rate
      quote_expires_at := u.quote_expires_at.getD q.quote_expires_at
      is_expired := u.is_expired.getD q.is_expired }

/-- FXQuoteRepository.update: looks the row up by id, returns none when
absent, otherwise applies the field dictionary and commits. -/
def update (db : DB) (quote_id : ℕ) (u : QuoteUpdate) : DB × Option FXQuote :=
  match get_by_id db quote_id with
  | none => (db, none)
  | some q =>
      ({ db with
          quotes := db.quotes.map
            (fun r => if r.id = quote_id then applyUpdate u r else r) },
       some (applyUpdate u q))

/-- FXQuoteRepository.expire_old_quotes: bulk-marks every row whose flag is
unset and whose expiry lies strictly in the past, returning the count. -/
def expire_old_quotes (db : DB) (now : ℤ) : DB × ℕ :=
  ({ db with
      quotes := db.quotes.map
        (fun q =>
          if !q.is_expired && decide (q.quote_expires_at < now) then
            { q with is_expired := true }
          else q) },
   (db.quotes.filter
      (fun q => !q.is_expired && decide (q.quote_expires_at < now))).length)

/-- FXQuoteRepository.get_by_company: filters the company's rows and, unless
include_expired is set, applies the or_-filter written in the source —
is_expired == False, OR (is_expired == False AND quote_expires_at > now).
The source additionally orders by created_at descending; the ordering is
immaterial to every property below and the filtered list keeps table order. -/
def get_by_company (db : DB) (company_id : ℕ) (include_expired : Bool)
    (now : ℤ) : List FXQuote :=
  let base := db.quotes.filter (fun q => q.company_id = company_id)
  if include_expired then base
  else
    base.filter
      (fun q =>
        (!q.is_expired) ||
        (!q.is_expired && decide (now < q.quote_expires_at)))

/-- Result dictionary of FXQuoteRepository.get_quote_statistics. -/
structure QuoteStats where
  total_quotes : ℕ
  expired_quotes : ℕ
  active_quotes : ℕ
  currency_pairs : List String
deriving DecidableEq

/-- FXQuoteRepository.get_quote_statistics: selects the company's quotes
created in the window, then counts expired and active rows by the is_expired
flag alone. -/
def get_quote_statistics (db : DB) (company_id : ℕ) (now : ℤ) (days : ℤ) :
    QuoteStats :=
  let cutoff := now - days * 86400
  let quotes := db.quotes.filter
    (fun q => q.company_id = company_id && decide (cutoff ≤ q.created_at))
  if quotes.isEmpty then
    { total_quotes := 0, expired_quotes := 0, active_quotes := 0,
      currency_pairs := [] }
  else
    { total_quotes := quotes.length
      expired_quotes := (quotes.filter (fun q => q.is_expired)).length
      active_quotes := (quotes.filter (fun q => !q.is_expired)).length
      currency_pairs :=
        (quotes.map (fun q => q.source_currency ++ "/" ++ q.target_currency)).dedup }

/-- config.FX_MARKUP_PERCENTAGE, default "0.005": the markup fraction the
FXService constructor loads into self.markup_percentage. The value is
deployment configuration (an environment variable), so the service operations
below carry it as the markup parameter; this constant is its default. -/
def FX_MARKUP_PERCENTAGE : ℚ := 5/1000

/-- The quote_data dictionary request_quote persists: the provider's raw rate,
the configured markup range, the rounded final rate, and the provider expiry,
with the lazy flag initialised to False. -/
def new_quote (db : DB) (company_id : ℕ) (from_currency to_currency : String)
    (provider_quote : ProviderQuote) (markup final_rate : ℚ) (now : ℤ) :
    FXQuote :=
  { id := next_id db
    company_id := company_id
    quote_id := provider_quote.quote_id
    source_currency := (upper from_currency)
    target_currency := (upper to_currency)
    rate := provider_quote.rate
    markup_percentage := markup
    final_rate := final_rate
    quote_expires_at := provider_quote.expires_at
    is_expired := false
    created_at := now }

/-- The audit dictionary request_quote writes after persisting the quote. -/
def audit_entry (user_id : ℕ) (quote : FXQuote)
    (from_currency to_currency : String) (final_rate amount : ℚ) : AuditLog :=
  { user_id := some user_id
    entity_type := "fx_quote"
    entity_id := quote.id
    action := "requested"
    new_values :=
      [("quote_id", quote.quote_id),
       ("currency_pair", from_currency ++ "/" ++ to_currency),
       ("rate", toString final_rate),
       ("amount", toString amount)] }

/-- FXService.request_quote: fetches the provider quote, derives the final
rate by applying the markup multiplicatively and rounding to 4 decimal places,
computes the converted amount from the rounded final rate (a local the source
discards: the persisted row carries only the rates), persists the quote row,
writes one audit entry, and maps any raised exception to (None, str(e)).
The fx_repo.create and audit_repo.create calls each commit on their own;
there is no surrounding transaction. -/
def request_quote (db : DB) (markup : ℚ) (company_id : ℕ)
    (from_currency to_currency : String) (amount : ℚ) (user_id : ℕ)
    (validity_seconds : ℤ) (now : ℤ) (fluct : ℚ) :
    DB × Option FXQuote × Option String :=
  match get_quote from_currency to_currency amount validity_seconds now fluct with
  | .error e => (db, none, some e)
  | .ok provider_quote =>
      let base_rate := provider_quote.rate
      let markup_rate := base_rate * (1 + markup)
      let final_rate := quantize4 markup_rate
      let _target_amount := quantize2 (amount * final_rate)
      let quote : FXQuote :=
        new_quote db company_id from_currency to_currency provider_quote
          markup final_rate now
      match fx_create db quote with
      | .error e => (db, none, some e)
      | .ok db1 =>
          match audit_create db1
              (audit_entry user_id quote from_currency to_currency
                final_rate amount) with
          | .error e => (db1, none, some e)
          | .ok db2 => (db2, some quote, none)

/-- FXService.is_quote_valid: false immediately when the flag is already set;
when the expiry lies strictly before the clock, marks the row expired in the
database (the lazy-expiry write) and returns false; otherwise true. -/
def is_quote_valid (db : DB) (quote : FXQuote) (now : ℤ) : DB × Bool :=
  if quote.is_expired then (db, false)
  else if quote.quote_expires_at < now then ((mark_expired db quote.id).1, false)
  else (db, true)

/-- Result dictionary of FXService.calculate_amount. -/
structure AmountCalc where
  source_amount : ℚ
  target_amount : ℚ
  exchange_rate : ℚ
  base_rate : ℚ
  markup_fee : ℚ
  markup_percentage : ℚ
deriving DecidableEq

/-- FXService.calculate_amount: a pure function of the quote row and the
source amount — it takes no provider or database handle, so every rate it
uses is the one frozen on the quote. -/
def calculate_amount (quote : FXQuote) (source_amount : ℚ) : AmountCalc :=
  let target_amount := quantize2 (source_amount * quote.final_rate)
  let base_target_amount := quantize2 (source_amount * quote.rate)
  let markup_fee := target_amount - base_target_amount
  { source_amount := source_amount
    target_amount := target_amount
    exchange_rate := quote.final_rate
    base_rate := quote.rate
    markup_fee := markup_fee
    markup_percentage := quote.markup_percentage * 100 }

/-- Deciding user of a payment approval, with the role recorded on the users
table (admin, maker or approver). -/
structure User where
  id : ℕ
  role : String
deriving DecidableEq

/-- Row of the payments table (Payment in app/database/models.py), restricted
to the fields the approval decision reads and writes. -/
structure Payment where
  id : ℕ
  company_id : ℕ
  created_by_user_id : ℕ
  status : String
  failure_reason : Option String
deriving DecidableEq

/-- Errors of the Decide operation, named as in the spec's error taxonomy. -/
inductive DecideError where
  | SelfApprovalForbidden
  | StaleStateConflict
  | ValidationFailed
deriving DecidableEq

/-- Modelled from the spec: the Decide operation of the Payment Workflow is
not implemented under src/ — the Approvals page is a static mock with
hard-coded data and models.py only declares the PaymentApproval table — so
the transition is taken from spec §4.2 and §7: it requires the payment to be
in pending_approval (else a stale-state error), fails with
SelfApprovalForbidden whenever the deciding user is the payment's creator
(the guard depends only on the two ids, never on the decider's role), rejects
with reason "quote expired" when the attached quote is no longer valid,
approves on an approve action, and rejects on a reject action only with a
non-empty comment. An error leaves the payment unchanged. -/
def Decide (p : Payment) (decider : User) (action : String) (comment : String)
    (quote_valid : Bool) : Payment × Option DecideError :=
  if p.status ≠ "pending_approval" then (p, some .StaleStateConflict)
  else if decider.id = p.created_by_user_id then
    (p, some .SelfApprovalForbidden)
  else if !quote_valid then
    ({ p with status := "rejected", failure_reason := some "quote expired" }, none)
  else if action = "approve" then
    ({ p with status := "approved" }, none)
  else if action = "reject" then
    if comment = "" then (p, some .ValidationFailed)
    else ({ p with status := "rejected", failure_reason := some comment }, none)
  else (p, some .ValidationFailed)

/-! Concrete states used to instantiate and to refute the claims. -/

/-- An empty database. -/
def dbEmpty : DB := { companies := [], users := [], quotes := [], audits := [] }

/-- Database with company 1 and user 7 and no quotes: the clean starting state
for quote requests. -/
def dbReady : DB := { companies := [1], users := [7], quotes := [], audits := [] }

/-- Database with company 1 and no users: quote creation succeeds here but the
audit write violates its user_id foreign key. -/
def dbNoUser : DB := { companies := [1], users := [], quotes := [], audits := [] }

/-- A quote created at t = 0 with validity_seconds = 120: its expiry timestamp
is 120, the lazy flag still unset. -/
def quoteBoundary : FXQuote :=
  { id := 1, company_id := 1, quote_id := "MFX-0"
    source_currency := "GBP", target_currency := "EUR"
    rate := 11650/10000, markup_percentage := 5/1000, final_rate := 11708/10000
    quote_expires_at := 120, is_expired := false, created_at := 0 }

/-- A stale quote: its expiry timestamp (100) has passed but its is_expired
flag was never flipped. -/
def quoteStale : FXQuote :=
  { id := 2, company_id := 1, quote_id := "MFX-1"
    source_currency := "GBP", target_currency := "EUR"
    rate := 11650/10000, markup_percentage := 5/1000, final_rate := 11708/10000
    quote_expires_at := 100, is_expired := false, created_at := 0 }

/-- Database holding only the stale quote. -/
def dbStale : DB :=
  { companies := [1], users := [7], quotes := [quoteStale], audits := [] }

/-- A quote whose is_expired flag has been persisted as true. -/
def quoteDone : FXQuote :=
  { id := 1, company_id := 1, quote_id := "MFX-2"
    source_currency := "GBP", target_currency := "EUR"
    rate := 11650/10000, markup_percentage := 5/1000, final_rate := 11708/10000
    quote_expires_at := 50, is_expired := true, created_at := 0 }

/-- Database holding only the already-expired quote. -/
def dbDone : DB :=
  { companies := [1], users := [7], quotes := [quoteDone], audits := [] }

/-- Field dictionary that explicitly passes is_expired = False. -/
def updUnset : QuoteUpdate := { is_expired := some false }

/-- Field dictionary touching only the rate. -/
def updRate : QuoteUpdate := { rate := some 2 }

/-- A payment sitting in pending_approval, created by user 7. -/
def paymentPending : Payment :=
  { id := 1, company_id := 1, created_by_user_id := 7
    status := "pending_approval", failure_reason := none }

/-- The creator of paymentPending acting as decider, holding the approver
role. -/
def creatorAsChecker : User := { id := 7, role := "approver" }

/-! Shared lemmas about the embedded operations. -/

/-- After mark_expired, every stored row carrying the marked id has its
is_expired flag set (vacuously so when no row carries it). -/
theorem mark_expired_mem (db : DB) (qid : ℕ) :
    ∀ r ∈ (mark_expired db qid).1.quotes, r.id = qid → r.is_expired = true := by
  intro r hr hid
  unfold mark_expired at hr
  cases h : get_by_id db qid with
  | none =>
      rw [h] at hr
      unfold get_by_id at h
      have hnone := List.find?_eq_none.mp h r hr
      simp only [decide_eq_true_eq] at hnone
      exact absurd hid hnone
  | some q =>
      rw [h] at hr
      simp only [List.mem_map] at hr
      obtain ⟨a, ha, rfl⟩ := hr
      by_cases hcase : a.id = qid
      · simp [hcase]
      · simp only [if_neg hcase] at hid ⊢
        exact absurd hid hcase

/-- A provider failure inside request_quote is caught, leaves the database
untouched, and hands the exception text back to the caller. -/
theorem request_quote_provider_error (db : DB) (markup : ℚ) (cid : ℕ)
    (f t : String) (a : ℚ) (uid : ℕ) (vs now : ℤ) (fluct : ℚ) (e : String)
    (h : get_quote f t a vs now fluct = .error e) :
    request_quote db markup cid f t a uid vs now fluct = (db, none, some e) := by
  unfold request_quote
  rw [h]

/-! C1 — validity of a quote at and around its expiry instant. -/

/-- C1, counterexample: the claim says IsValid is false at the exact boundary
now = expiry (a quote with validity 120 is invalid at t+120s), but
is_quote_valid compares with a strict less-than, so at now = 120 the quote
whose expiry is 120 is still reported valid and no flag is flipped. -/
theorem C1_boundary_counterexample :
    quoteBoundary.is_expired = false ∧
    quoteBoundary.quote_expires_at = 120 ∧
    is_quote_valid dbEmpty quoteBoundary 120 = (dbEmpty, true) := by
  refine ⟨rfl, rfl, ?_⟩
  decide

/-- C1, amended: is_quote_valid returns false when the flag is already set;
with the flag unset it returns true for every now up to and including the
expiry timestamp, and for every now strictly past the expiry it flips the
stored flag (the mark_expired lazy write) and returns false. -/
theorem C1_quote_validity_amended (db : DB) (q : FXQuote) (now : ℤ) :
    (q.is_expired = true → is_quote_valid db q now = (db, false)) ∧
    (q.is_expired = false → now ≤ q.quote_expires_at →
      is_quote_valid db q now = (db, true)) ∧
    (q.is_expired = false → q.quote_expires_at < now →
      is_quote_valid db q now = ((mark_expired db q.id).1, false) ∧
      ∀ r ∈ (mark_expired db q.id).1.quotes, r.id = q.id → r.is_expired = true) := by
  refine ⟨?_, ?_, ?_⟩
  · intro h
    unfold is_quote_valid
    rw [h]
    simp
  · intro h hle
    unfold is_quote_valid
    rw [h]
    simp [not_lt.mpr hle]
  · intro h hlt
    unfold is_quote_valid
    rw [h]
    refine ⟨?_, mark_expired_mem db q.id⟩
    simp [hlt]

/-- C1, witness: at t+119s the 120-second quote is valid; one second past a
stale quote's expiry the lazy write happens and validity is false. -/
theorem C1_quote_validity_amended_witness :
    is_quote_valid dbEmpty quoteBoundary 119 = (dbEmpty, true) ∧
    is_quote_valid dbStale quoteStale 101 =
      ((mark_expired dbStale quoteStale.id).1, false) :=
  ⟨(C1_quote_validity_amended dbEmpty quoteBoundary 119).2.1 rfl (by decide),
   ((C1_quote_validity_amended dbStale quoteStale 101).2.2 rfl (by decide)).1⟩

/-! C3 — maker-checker: self-approval is forbidden. -/

/-- C3: for every payment in pending_approval and every deciding user whose id
equals the creator id, Decide fails with SelfApprovalForbidden and returns the
payment unchanged, whatever the decider's role, the action, the comment or the
quote's validity. -/
theorem C3_self_approval_forbidden (p : Payment) (d : User)
    (action comment : String) (quote_valid : Bool)
    (hs : p.status = "pending_approval") (hid : d.id = p.created_by_user_id) :
    Decide p d action comment quote_valid =
      (p, some DecideError.SelfApprovalForbidden) := by
  unfold Decide
  rw [hs, hid]
  simp

/-- C3, witness: the creator of the pending payment, acting with the approver
role, is refused with state unchanged. -/
theorem C3_self_approval_forbidden_witness :
    Decide paymentPending creatorAsChecker "approve" "" true =
      (paymentPending, some DecideError.SelfApprovalForbidden) :=
  C3_self_approval_forbidden paymentPending creatorAsChecker "approve" "" true
    rfl rfl

/-! C8 — calculate_amount derives everything from the frozen quote rates. -/

/-- C8: calculate_amount returns the source amount times the quote's frozen
final rate rounded to 2 decimal places half-even, and a markup fee equal to
that target amount minus the 2-decimal half-even rounding of the same amount
converted at the quote's frozen base rate; the echoed rates are the quote's
own fields (the function takes no provider handle, so no fresh rate lookup is
possible). -/
theorem C8_calculate_amount (q : FXQuote) (a : ℚ) :
    (calculate_amount q a).target_amount = quantize2 (a * q.final_rate) ∧
    (calculate_amount q a).markup_fee =
      (calculate_amount q a).target_amount - quantize2 (a * q.rate) ∧
    (calculate_amount q a).exchange_rate = q.final_rate ∧
    (calculate_amount q a).base_rate = q.rate ∧
    (calculate_amount q a).source_amount = a :=
  ⟨rfl, rfl, rfl, rfl, rfl⟩

/-! C9 — the lazy expiry flip is idempotent. -/

/-- Setting the is_expired flag of an already-expired row rebuilds the same
row. -/
theorem set_expired_self (q : FXQuote) (h : q.is_expired = true) :
    ({ q with is_expired := true } : FXQuote) = q := by
  cases q
  simp_all

/-- Mapping a function that fixes every element of a list is the identity. -/
theorem map_id_of {α : Type} (l : List α) (f : α → α)
    (h : ∀ a ∈ l, f a = a) : l.map f = l := by
  induction l with
  | nil => rfl
  | cons x xs ih =>
      simp only [List.map_cons]
      rw [h x (by simp), ih (fun a ha => h a (by simp [ha]))]

/-- C9: marking an already-expired quote expired succeeds (returns true) and
leaves the store identical, so the flip applied twice — as two concurrent
validity checks past expiry would — equals the flip applied once and never
errors. The hypothesis that every row carrying the id is already expired is
the situation the claim describes (ids are the table's primary key). -/
theorem C9_mark_expired_idempotent (db : DB) (qid : ℕ) (q : FXQuote)
    (hfind : get_by_id db qid = some q)
    (hall : ∀ r ∈ db.quotes, r.id = qid → r.is_expired = true) :
    mark_expired db qid = (db, true) ∧
    mark_expired (mark_expired db qid).1 qid = (db, true) := by
  have hmap : db.quotes.map
      (fun r => if r.id = qid then { r with is_expired := true } else r) =
      db.quotes := by
    apply map_id_of
    intro a ha
    by_cases hid : a.id = qid
    · rw [if_pos hid]
      exact set_expired_self a (hall a ha hid)
    · exact if_neg hid
  have h1 : mark_expired db qid = (db, true) := by
    unfold mark_expired
    rw [hfind]
    rw [hmap]
  refine ⟨h1, ?_⟩
  have hfst : (mark_expired db qid).1 = db := by rw [h1]
  rw [hfst]
  exact h1

/-- C9, witness: the flip on the concretely expired quote is a no-op that
reports success, twice over. -/
theorem C9_mark_expired_idempotent_witness :
    mark_expired dbDone 1 = (dbDone, true) ∧
    mark_expired (mark_expired dbDone 1).1 1 = (dbDone, true) :=
  C9_mark_expired_idempotent dbDone 1 quoteDone (by decide) (by decide)

/-! C7 — whether the expired flag can ever be unset. -/

/-- C7, counterexample: the claim says the generic update, applied with an
arbitrary field dictionary, preserves is_expired = true; but the setattr loop
applies whatever the dictionary contains, so a dictionary carrying
is_expired = False unsets the flag of the stored (previously expired) row. -/
theorem C7_update_counterexample :
    (get_by_id dbDone 1).map (fun q => q.is_expired) = some true ∧
    ((update dbDone 1 updUnset).1.quotes.map (fun r => r.is_expired)) = [false] := by
  constructor
  · decide
  · decide

/-- C7, amended: mark_expired and expire_old_quotes never unset the flag, and
the generic update preserves every set flag provided its field dictionary does
not explicitly carry is_expired = False; row for row, an expired row stays
expired. -/
theorem C7_expired_flag_monotone (db : DB) (qid : ℕ) (u : QuoteUpdate)
    (now : ℤ) (hu : u.is_expired ≠ some false) :
    List.Forall₂ (fun r s => r.is_expired = true → s.is_expired = true)
      db.quotes ((update db qid u).1.quotes) ∧
    List.Forall₂ (fun r s => r.is_expired = true → s.is_expired = true)
      db.quotes ((mark_expired db qid).1.quotes) ∧
    List.Forall₂ (fun r s => r.is_expired = true → s.is_expired = true)
      db.quotes ((expire_old_quotes db now).1.quotes) := by
  have happly : ∀ r : FXQuote, r.is_expired = true →
      (applyUpdate u r).is_expired = true := by
    intro r hr
    show u.is_expired.getD r.is_expired = true
    cases hcase : u.is_expired with
    | none => simpa using hr
    | some b =>
        cases b with
        | false => exact absurd hcase hu
        | true => rfl
  have hmap : ∀ (f : FXQuote → FXQuote),
      (∀ r : FXQuote, r.is_expired = true → (f r).is_expired = true) →
      List.Forall₂ (fun r s => r.is_expired = true → s.is_expired = true)
        db.quotes (db.quotes.map f) := by
    intro f hf
    induction db.quotes with
    | nil => simp
    | cons x xs ih =>
        simp only [List.map_cons]
        exact List.Forall₂.cons (hf x) ih
  have hself : List.Forall₂
      (fun r s => r.is_expired = true → s.is_expired = true)
      db.quotes db.quotes := by
    induction db.quotes with
    | nil => simp
    | cons x xs ih => exact List.Forall₂.cons (fun h => h) ih
  refine ⟨?_, ?_, ?_⟩
  · unfold update
    cases hfind : get_by_id db qid with
    | none => exact hself
    | some q =>
        apply hmap
        intro r hr
        by_cases hid : r.id = qid
        · rw [if_pos hid]
          exact happly r hr
        · rw [if_neg hid]
          exact hr
  · unfold mark_expired
    cases hfind : get_by_id db qid with
    | none => exact hself
    | some q =>
        apply hmap
        intro r hr
        by_cases hid : r.id = qid
        · simp [hid]
        · rw [if_neg hid]
          exact hr
  · unfold expire_old_quotes
    apply hmap
    intro r hr
    by_cases hcond : (!r.is_expired && decide (r.quote_expires_at < now)) = true
    · rw [if_pos hcond]
    · rw [if_neg hcond]
      exact hr

/-- C7, witness: an update touching only the rate keeps the concretely
expired store expired. -/
theorem C7_expired_flag_monotone_witness :
    List.Forall₂ (fun r s => r.is_expired = true → s.is_expired = true)
      dbDone.quotes ((update dbDone 1 updRate).1.quotes) :=
  (C7_expired_flag_monotone dbDone 1 updRate 0 (by decide)).1

/-! C4 — what the caller sees when the provider fails. -/

/-- C4, counterexample: the claim says the caller receives only the generic
ProviderUnavailable condition with no provider-specific detail; but the
except-clause returns str(e), so an unsupported-currency failure hands the
provider's own message — naming the offending currency — straight back. -/
theorem C4_provider_detail_counterexample :
    request_quote dbReady FX_MARKUP_PERCENTAGE 1 "XY" "EUR" 100 7 120 1000 0 =
      (dbReady, none, some "Unsupported source currency: XY") ∧
    "Unsupported source currency: XY" ≠ "ProviderUnavailable" := by
  constructor
  · decide
  · decide

/-- C4, amended: every provider failure inside request_quote is caught and
surfaced as (None, message), but the message is the provider exception's own
text rather than a generic ProviderUnavailable condition; no exception
escapes to the caller and the store is untouched. -/
theorem C4_error_passthrough_amended (db : DB) (markup : ℚ) (cid : ℕ)
    (f t : String) (a : ℚ) (uid : ℕ) (vs now : ℤ) (fluct : ℚ) (e : String)
    (h : get_quote f t a vs now fluct = .error e) :
    request_quote db markup cid f t a uid vs now fluct = (db, none, some e) :=
  request_quote_provider_error db markup cid f t a uid vs now fluct e h

/-- C4, witness: a same-currency request trips the provider's missing
target_amount key and the caller receives exactly that KeyError text. -/
theorem C4_error_passthrough_amended_witness :
    request_quote dbReady FX_MARKUP_PERCENTAGE 1 "GBP" "GBP" 100 7 120 1000 0 =
      (dbReady, none, some "KeyError: target_amount") :=
  C4_error_passthrough_amended dbReady FX_MARKUP_PERCENTAGE 1 "GBP" "GBP" 100 7
    120 1000 0 "KeyError: target_amount" (by rfl)

/-! C10 — a zero source amount can never produce a quote. -/

/-- With a zero amount, any rate dictionary get_rate successfully returns
omits the target_amount key. -/
theorem get_rate_zero_target (f t : String) (fluct : ℚ) (ri : RateInfo)
    (h : get_rate f t 0 fluct = .ok ri) : ri.target_amount = none := by
  unfold get_rate at h
  split at h
  · exact absurd h (by simp)
  · exact absurd h (by simp)
  · split at h
    · simp only [Except.ok.injEq] at h
      rw [← h]
    · simp only [Except.ok.injEq] at h
      rw [← h]
      simp

/-- With a zero amount, get_quote always raises: either a currency validation
error from get_rate, or the KeyError on the omitted target_amount key. -/
theorem get_quote_zero_error (f t : String) (vs now : ℤ) (fluct : ℚ) :
    ∃ e, get_quote f t 0 vs now fluct = .error e := by
  unfold get_quote
  cases hr : get_rate f t 0 fluct with
  | error e => exact ⟨e, rfl⟩
  | ok ri =>
      have ht := get_rate_zero_target f t fluct ri hr
      refine ⟨"KeyError: target_amount", ?_⟩
      simp [ht]

/-- On a supported pair of distinct currencies, the zero-amount failure is
precisely the KeyError on target_amount. -/
theorem get_quote_zero_key_error (f t : String) (vs now : ℤ) (fluct rf rt : ℚ)
    (h1 : BASE_RATES (upper f) = some rf) (h2 : BASE_RATES (upper t) = some rt)
    (hne : upper f ≠ upper t) :
    get_quote f t 0 vs now fluct = .error "KeyError: target_amount" := by
  unfold get_quote get_rate
  rw [h1, h2]
  simp [hne]

/-- C10: request_quote with a source amount of exactly zero never returns a
quote and never touches the store — the provider's get_rate omits
target_amount for a falsy amount, get_quote raises, and the service reports
(None, error); on a supported distinct pair the error is exactly the KeyError
on target_amount. -/
theorem C10_zero_amount_never_quotes (db : DB) (markup : ℚ) (cid : ℕ)
    (f t : String) (uid : ℕ) (vs now : ℤ) (fluct : ℚ) :
    (request_quote db markup cid f t 0 uid vs now fluct).2.1 = none ∧
    (request_quote db markup cid f t 0 uid vs now fluct).1 = db ∧
    ((request_quote db markup cid f t 0 uid vs now fluct).2.2).isSome = true ∧
    (∀ rf rt, BASE_RATES (upper f) = some rf → BASE_RATES (upper t) = some rt →
      upper f ≠ upper t →
      (request_quote db markup cid f t 0 uid vs now fluct).2.2 =
        some "KeyError: target_amount") := by
  obtain ⟨e, he⟩ := get_quote_zero_error f t vs now fluct
  have hrq := request_quote_provider_error db markup cid f t 0 uid vs now fluct e he
  refine ⟨by rw [hrq], by rw [hrq], by rw [hrq]; rfl, ?_⟩
  intro rf rt h1 h2 hne
  rw [request_quote_provider_error db markup cid f t 0 uid vs now fluct
    "KeyError: target_amount" (get_quote_zero_key_error f t vs now fluct rf rt h1 h2 hne)]

/-- C10, witness: a zero-amount GBP→EUR request on the clean store fails with
the KeyError and creates nothing. -/
theorem C10_zero_amount_never_quotes_witness :
    (request_quote dbReady FX_MARKUP_PERCENTAGE 1 "GBP" "EUR" 0 7 120 1000 0).2.1 = none ∧
    (request_quote dbReady FX_MARKUP_PERCENTAGE 1 "GBP" "EUR" 0 7 120 1000 0).1 = dbReady ∧
    (request_quote dbReady FX_MARKUP_PERCENTAGE 1 "GBP" "EUR" 0 7 120 1000 0).2.2 =
      some "KeyError: target_amount" :=
  ⟨(C10_zero_amount_never_quotes dbReady FX_MARKUP_PERCENTAGE 1 "GBP" "EUR" 7 120 1000 0).1,
   (C10_zero_amount_never_quotes dbReady FX_MARKUP_PERCENTAGE 1 "GBP" "EUR" 7 120 1000 0).2.1,
   (C10_zero_amount_never_quotes dbReady FX_MARKUP_PERCENTAGE 1 "GBP" "EUR" 7 120 1000 0).2.2.2
     (10000/10000) (11650/10000) (by decide) (by decide) (by decide)⟩

/-! C2 — markup and rounding order in request_quote. -/

/-- On a supported pair of distinct currencies and a nonzero amount, get_rate
returns the fluctuation-adjusted cross rate rounded to 4 decimal places,
with the converted amount present. -/
theorem get_rate_ok (f t : String) (a fluct rf rt : ℚ)
    (h1 : BASE_RATES (upper f) = some rf) (h2 : BASE_RATES (upper t) = some rt)
    (hne : upper f ≠ upper t) (ha : a ≠ 0) :
    get_rate f t a fluct = .ok
      { rate := quantize4 ((rt / rf) * (1 + fluct)),
        target_amount := some (quantize2 (a * quantize4 ((rt / rf) * (1 + fluct)))) } := by
  unfold get_rate
  rw [h1, h2]
  simp [hne, ha]

/-- On a supported pair of distinct currencies and a nonzero amount, get_quote
succeeds with the provider rate and an expiry of now plus the window. -/
theorem get_quote_ok (f t : String) (a : ℚ) (vs now : ℤ) (fluct rf rt : ℚ)
    (h1 : BASE_RATES (upper f) = some rf) (h2 : BASE_RATES (upper t) = some rt)
    (hne : upper f ≠ upper t) (ha : a ≠ 0) :
    get_quote f t a vs now fluct = .ok
      { quote_id := "MFX-" ++ toString now
        rate := quantize4 ((rt / rf) * (1 + fluct))
        source_amount := a
        target_amount := quantize2 (a * quantize4 ((rt / rf) * (1 + fluct)))
        expires_at := now + vs } := by
  unfold get_quote
  rw [get_rate_ok f t a fluct rf rt h1 h2 hne ha]

/-- C2: for a supported pair of distinct currencies, any markup fraction and a
nonzero amount (with the row's foreign key and uniqueness intact so the
commits succeed), request_quote returns a quote whose persisted rate is the
provider base rate, whose final rate is that base rate marked up
multiplicatively and only then rounded to 4 decimal places half-even, and
whose converted amount is the amount times the already-rounded final rate,
rounded to 2 decimal places half-even — the rate is rounded first, the amount
second, never the reverse. -/
theorem C2_rounding_order (db : DB) (markup : ℚ) (cid : ℕ) (f t : String)
    (a : ℚ) (uid : ℕ) (vs now : ℤ) (fluct rf rt : ℚ)
    (h1 : BASE_RATES (upper f) = some rf) (h2 : BASE_RATES (upper t) = some rt)
    (hne : upper f ≠ upper t) (ha : a ≠ 0)
    (hc : cid ∈ db.companies)
    (hfresh : db.quotes.any (fun r => r.quote_id = "MFX-" ++ toString now) = false)
    (hu : uid ∈ db.users) :
    ∃ q, (request_quote db markup cid f t a uid vs now fluct).2.1 = some q ∧
      (request_quote db markup cid f t a uid vs now fluct).2.2 = none ∧
      q.rate = quantize4 ((rt / rf) * (1 + fluct)) ∧
      q.final_rate = quantize4 (q.rate * (1 + markup)) ∧
      (calculate_amount q a).target_amount = quantize2 (a * q.final_rate) := by
  have hgq := get_quote_ok f t a vs now fluct rf rt h1 h2 hne ha
  unfold request_quote
  rw [hgq]
  simp [fx_create, audit_create, new_quote, audit_entry, hfresh, hc, hu]
  rfl

/-- C2, witness: the spec scenario — GBP→EUR at base rate 1.1650 with markup
0.005 and amount 10,000 gives final rate 1.1708 and target 11,708.00, while
rounding in the reverse order would give 11,708.25 instead. -/
theorem C2_rounding_order_witness :
    (∃ q, (request_quote dbReady FX_MARKUP_PERCENTAGE 1 "GBP" "EUR" 10000 7 120 1000 0).2.1 = some q ∧
      (request_quote dbReady FX_MARKUP_PERCENTAGE 1 "GBP" "EUR" 10000 7 120 1000 0).2.2 = none ∧
      q.rate = quantize4 ((11650/10000 : ℚ) / (10000/10000) * (1 + 0)) ∧
      q.final_rate = quantize4 (q.rate * (1 + FX_MARKUP_PERCENTAGE)) ∧
      (calculate_amount q 10000).target_amount = quantize2 (10000 * q.final_rate)) ∧
    quantize4 ((11650/10000 : ℚ) / (10000/10000) * (1 + 0)) = 11650/10000 ∧
    quantize4 ((11650/10000 : ℚ) * (1 + FX_MARKUP_PERCENTAGE)) = 11708/10000 ∧
    quantize2 ((10000 : ℚ) * (11708/10000)) = 11708 ∧
    quantize2 ((10000 : ℚ) * ((11650/10000) * (1 + FX_MARKUP_PERCENTAGE))) ≠ 11708 :=
  ⟨C2_rounding_order dbReady FX_MARKUP_PERCENTAGE 1 "GBP" "EUR" 10000 7 120 1000 0
      (10000/10000) (11650/10000) (by decide) (by decide) (by decide) (by decide)
      (by decide) (by decide) (by decide),
   by decide, by decide, by decide, by decide⟩

/-! C6 — what state a failed request_quote leaves behind. -/

/-- A successful fx_create appends exactly the one new row. -/
theorem fx_create_ok (db : DB) (q : FXQuote) (db1 : DB)
    (h : fx_create db q = .ok db1) :
    db1 = { db with quotes := db.quotes ++ [q] } := by
  unfold fx_create at h
  split at h
  · split at h
    · exact absurd h (by simp)
    · simp only [Except.ok.injEq] at h
      exact h.symm
  · exact absurd h (by simp)

/-- The audit write succeeds whenever its acting user exists. -/
theorem audit_create_ok_of_mem (db : DB) (a : AuditLog) (u : ℕ)
    (hu : a.user_id = some u) (hmem : u ∈ db.users) :
    audit_create db a = .ok { db with audits := db.audits ++ [a] } := by
  unfold audit_create
  rw [hu]
  simp [hmem]

/-- C6, counterexample: the claim says every erroring request_quote leaves the
store exactly as before; but when the quote row commits and the audit write
then fails (here: the acting user id has no users row, tripping the audit
foreign key), the caller gets an error while the freshly created quote row
remains persisted. -/
theorem C6_partial_state_counterexample :
    ((request_quote dbNoUser FX_MARKUP_PERCENTAGE 1 "GBP" "EUR" 100 7 120 1000 0).2.2).isSome = true ∧
    (request_quote dbNoUser FX_MARKUP_PERCENTAGE 1 "GBP" "EUR" 100 7 120 1000 0).2.1 = none ∧
    (request_quote dbNoUser FX_MARKUP_PERCENTAGE 1 "GBP" "EUR" 100 7 120 1000 0).1 ≠ dbNoUser ∧
    ((request_quote dbNoUser FX_MARKUP_PERCENTAGE 1 "GBP" "EUR" 100 7 120 1000 0).1.quotes).length = 1 ∧
    dbNoUser.quotes.length = 0 :=
  ⟨by decide, by decide, by decide, by decide, by decide⟩

/-- C6, amended: an erroring request_quote never leaves a partial audit trail
and leaves the store exactly as before when the failure happens in the
provider call or in creating the quote row — in particular always when the
acting user exists; the only deviation is an audit-write failure after the
quote commit, which leaves exactly that one quote row behind. -/
theorem C6_error_rollback (db : DB) (markup : ℚ) (cid : ℕ) (f t : String)
    (a : ℚ) (uid : ℕ) (vs now : ℤ) (fluct : ℚ) (e : String)
    (herr : (request_quote db markup cid f t a uid vs now fluct).2.2 = some e) :
    (request_quote db markup cid f t a uid vs now fluct).1.audits = db.audits ∧
    ((request_quote db markup cid f t a uid vs now fluct).1 = db ∨
      ∃ qn, (request_quote db markup cid f t a uid vs now fluct).1 =
        { db with quotes := db.quotes ++ [qn] }) ∧
    (uid ∈ db.users → (request_quote db markup cid f t a uid vs now fluct).1 = db) := by
  cases hgq : get_quote f t a vs now fluct with
  | error e2 =>
      rw [request_quote_provider_error db markup cid f t a uid vs now fluct e2 hgq]
      exact ⟨rfl, Or.inl rfl, fun _ => rfl⟩
  | ok pq =>
      have hunfold : request_quote db markup cid f t a uid vs now fluct =
          (match fx_create db
              (new_quote db cid f t pq markup (quantize4 (pq.rate * (1 + markup))) now) with
          | .error e => (db, none, some e)
          | .ok db1 =>
              match audit_create db1
                  (audit_entry uid
                    (new_quote db cid f t pq markup (quantize4 (pq.rate * (1 + markup))) now)
                    f t (quantize4 (pq.rate * (1 + markup))) a) with
              | .error e => (db1, none, some e)
              | .ok db2 =>
                  (db2, some (new_quote db cid f t pq markup
                    (quantize4 (pq.rate * (1 + markup))) now), none)) := by
        unfold request_quote
        rw [hgq]
      rw [hunfold] at herr ⊢
      cases hcr : fx_create db
          (new_quote db cid f t pq markup (quantize4 (pq.rate * (1 + markup))) now) with
      | error e2 =>
          exact ⟨rfl, Or.inl rfl, fun _ => rfl⟩
      | ok db1 =>
          rw [hcr] at herr
          simp only [] at herr ⊢
          have hdb1 := fx_create_ok db _ db1 hcr
          cases har : audit_create db1
              (audit_entry uid
                (new_quote db cid f t pq markup (quantize4 (pq.rate * (1 + markup))) now)
                f t (quantize4 (pq.rate * (1 + markup))) a) with
          | error e2 =>
              refine ⟨by rw [hdb1], Or.inr ⟨_, by rw [hdb1]⟩, ?_⟩
              intro hmem
              have hok := audit_create_ok_of_mem db1
                (audit_entry uid
                  (new_quote db cid f t pq markup (quantize4 (pq.rate * (1 + markup))) now)
                  f t (quantize4 (pq.rate * (1 + markup))) a)
                uid rfl (by rw [hdb1]; exact hmem)
              rw [hok] at har
              exact absurd har (by simp)
          | ok db2 =>
              rw [har] at herr
              simp at herr

/-- C6, witness: a provider failure (zero amount) on the clean store leaves it
untouched. -/
theorem C6_error_rollback_witness :
    (request_quote dbReady FX_MARKUP_PERCENTAGE 1 "GBP" "EUR" 0 7 120 1000 0).1.audits = dbReady.audits ∧
    ((request_quote dbReady FX_MARKUP_PERCENTAGE 1 "GBP" "EUR" 0 7 120 1000 0).1 = dbReady ∨
      ∃ qn, (request_quote dbReady FX_MARKUP_PERCENTAGE 1 "GBP" "EUR" 0 7 120 1000 0).1 =
        { dbReady with quotes := dbReady.quotes ++ [qn] }) ∧
    (7 ∈ dbReady.users →
      (request_quote dbReady FX_MARKUP_PERCENTAGE 1 "GBP" "EUR" 0 7 120 1000 0).1 = dbReady) :=
  C6_error_rollback dbReady FX_MARKUP_PERCENTAGE 1 "GBP" "EUR" 0 7 120 1000 0
    "KeyError: target_amount" (by decide)

/-! C5 — read paths and time-expired quotes whose flag is still unset. -/

/-- C5: the spec (and the claim) make the expiry timestamp, not the persisted
flag, the source of truth on every read path; but the or_-filter in
get_by_company is absorbed by its first disjunct (is_expired == False), so a
quote whose expiry has passed while its flag is unset is still returned with
include_expired=False, and get_quote_statistics counts the same quote as
active because it counts by the flag alone. The conjuncts evaluate both read
paths on a store holding exactly one such stale quote at now = 200. -/
theorem C5_stale_quote_read_paths :
    quoteStale.is_expired = false ∧
    quoteStale.quote_expires_at < 200 ∧
    get_by_company dbStale 1 false 200 = [quoteStale] ∧
    (get_quote_statistics dbStale 1 200 30).active_quotes = 1 ∧
    (get_quote_statistics dbStale 1 200 30).expired_quotes = 0 :=
  ⟨rfl, by decide, by decide, by decide, by decide⟩

end Flow
